import Mathlib

/-!
Shallow embedding of the live-location tracking and driver-assignment
pipeline of the LogicBackup repository.

Sources embedded here:
- `src/lib/fallback-location.ts`: `generateConsistentTrackingId`,
  `generateShortId`, `getOrCreateTrackingId`, `calculateDistance`,
  `vehicleService.assignDriver`, `vehicleService.markVehicleAsInUse`,
  `vehicleService.markVehicleAsAvailable`, `locationService.updateLocation`,
  `bookingService.createBooking`, `bookingService.updateBooking`.
- `src/components/DriverLocationUpdater.tsx`: `calculateDistance` (identical
  copy), the component-level `updateLocation` throttle, `getIPLocation`,
  and the GPS retry logic of `tryGPSLocation` / `handleGeolocationError`.

The Firebase realtime store is modelled as a record of keyed partial maps;
`update(ref, fields)` is modelled with Firebase's merge semantics (it creates
the node when absent and overwrites only the named children).  JavaScript
numbers used as timestamps are modelled as `ℤ`, coordinates as `ℝ`, and the
32-bit wraparound of `hash & hash` / `hash << 5` as explicit reduction
modulo `2 ^ 32`.  JavaScript truthiness tests on strings (`x || null`,
`if (driverId)`) are modelled by `jsStrTruthy`, and on numbers
(`if (!lat1)`, `data.latitude &&`) by comparison with `0`.
-/

/-- JavaScript `ToInt32`: reduce an integer to the range `[-2^31, 2^31)`.
Used to model `hash << 5` (whose result is a 32-bit value) and
`hash = hash & hash` in `generateConsistentTrackingId`. -/
def toInt32 (x : ℤ) : ℤ := (x + 2 ^ 31) % 2 ^ 32 - 2 ^ 31

/-- One step of the loop body of `generateConsistentTrackingId`:
`hash = ((hash << 5) - hash) + charCode; hash = hash & hash`.
`hash << 5` wraps to 32 bits, the subtraction and addition are exact,
and `hash & hash` wraps the result to 32 bits again. -/
def jsHashStep (hash : ℤ) (c : ℕ) : ℤ :=
  toInt32 (toInt32 (hash * 32) - hash + (c : ℤ))

/-- `padStart(4, '0')` applied to the decimal representation of `n`. -/
def padStart4 (n : ℕ) : String :=
  let s := toString n
  String.mk (List.replicate (4 - s.length) '0') ++ s

/-- `generateConsistentTrackingId` from `fallback-location.ts`:
the `charCodeAt` loop hash, then
`vehicleId.replace(/[^a-zA-Z0-9]/g, '').substring(0, 4).toUpperCase()`
concatenated with `Math.abs(hash % 10000).toString().padStart(4, '0')`.
JavaScript `%` is the truncating remainder, so `Math.abs(hash % 10000)`
is `hash.natAbs % 10000`. -/
def generateConsistentTrackingId (vehicleId : String) : String :=
  let hash := vehicleId.toList.foldl (fun h ch => jsHashStep h ch.toNat) 0
  let shortId :=
    String.mk (((vehicleId.toList.filter Char.isAlphanum).take 4).map Char.toUpper)
  let uniqueDigits := padStart4 (hash.natAbs % 10000)
  shortId ++ uniqueDigits

/-- `generateShortId`: `fullId.slice(-6)`, the last six characters. -/
def generateShortId (fullId : String) : String :=
  String.mk (fullId.toList.drop (fullId.length - 6))

/-- Spec-side rolling hash, stated from the spec's words ("simple polynomial
rolling hash" over the full ID): `h ↦ 31 * h + c` wrapped to 32 bits.
Used only to compare against the source's `jsHashStep` loop. -/
def rollingHash31 (vehicleId : String) : ℤ :=
  vehicleId.toList.foldl (fun h ch => toInt32 (31 * h + (ch.toNat : ℤ))) 0

/-- Spec-side tracking-ID derivation, stated from the spec's words: up to 4
alphanumeric characters of the ID (uppercased) concatenated with the
4-digit zero-padded value of the polynomial rolling hash of the full ID
taken modulo 10000. -/
def trackingIdSpec (vehicleId : String) : String :=
  String.mk (((vehicleId.toList.filter Char.isAlphanum).take 4).map Char.toUpper)
    ++ padStart4 ((rollingHash31 vehicleId).natAbs % 10000)

theorem jsHashStep_eq_rolling (h : ℤ) (c : ℕ) :
    jsHashStep h c = toInt32 (31 * h + (c : ℤ)) := by
  unfold jsHashStep toInt32
  omega

/-- JavaScript string truthiness used at `vehicle.driverId || null`,
`if (driverId)` and `driverData.assignedVehicleId && ...`: the empty
string is falsy, every other string truthy. -/
def jsStrTruthy : Option String → Option String
  | none => none
  | some s => if s = "" then none else some s

@[simp] theorem jsStrTruthy_none : jsStrTruthy none = none := rfl

@[simp] theorem jsStrTruthy_some (s : String) (h : s ≠ "") :
    jsStrTruthy (some s) = some s := by simp [jsStrTruthy, h]

/-- `vehicleTrackingIds/{vehicleId}` record written by `getOrCreateTrackingId`. -/
structure TrackingRecord where
  trackingId : String
  vehicleId : String
  createdAt : ℤ
  createdBy : String
deriving DecidableEq

/-- `vehicleLocations/{vehicleId}` record written by
`locationService.updateLocation`. -/
structure VehicleLocation where
  vehicleId : String
  trackingId : String
  lat : ℝ
  lng : ℝ
  timestamp : ℤ
  updatedBy : String

/-- `vehicles/{id}` node, restricted to the children touched by the
embedded operations (`assignDriver`, `markVehicleAsInUse`,
`markVehicleAsAvailable`).  Every field is optional because Firebase
`update` can create a node holding only the written children. -/
structure VehicleRec where
  driverId : Option String := none
  available : Option Bool := none
  updatedAt : Option ℤ := none
deriving DecidableEq

/-- `users/{uid}` node, restricted to the children read or written by
`assignDriver` (`role`, `assignedVehicleId`, `updatedAt`). -/
structure UserRec where
  role : Option String := none
  assignedVehicleId : Option String := none
  updatedAt : Option ℤ := none
deriving DecidableEq

/-- `bookings/{id}` record as written by `bookingService.createBooking`. -/
structure BookingRec where
  id : String
  shortId : String
  userId : String
  vehicleId : String
  driverId : String
  pickupAddress : String
  destinationAddress : String
  pickupLat : ℝ
  pickupLng : ℝ
  destinationLat : ℝ
  destinationLng : ℝ
  distance : ℝ
  estimatedTime : String
  amount : ℝ
  status : String
  paymentStatus : String
  createdAt : ℤ
  updatedAt : ℤ
  shipmentId : Option String := none
  paymentId : Option String := none

/-- Argument record of `bookingService.createBooking`. -/
structure BookingInput where
  userId : String
  vehicleId : String
  driverId : String
  pickupAddress : String
  destinationAddress : String
  pickupLat : ℝ
  pickupLng : ℝ
  destinationLat : ℝ
  destinationLng : ℝ
  distance : ℝ
  estimatedTime : String
  amount : ℝ

/-- `Partial<Booking>` as passed to `bookingService.updateBooking` by the
callers in this repository (`status`, `shipmentId`, `paymentStatus`,
`paymentId`); an absent field is not written. -/
structure BookingUpdate where
  status : Option String := none
  shipmentId : Option String := none
  paymentStatus : Option String := none
  paymentId : Option String := none

/-- The shared realtime keyed store, restricted to the paths used by the
embedded core: `vehicles/…`, `users/…`, `vehicleTrackingIds/…`,
`vehicleLocations/…`, `bookings/…`. -/
structure Store where
  vehicles : String → Option VehicleRec
  users : String → Option UserRec
  vehicleTrackingIds : String → Option TrackingRecord
  vehicleLocations : String → Option VehicleLocation
  bookings : String → Option BookingRec

/-- The store in which every path is absent. -/
def Store.empty : Store :=
  ⟨fun _ => none, fun _ => none, fun _ => none, fun _ => none, fun _ => none⟩

def Store.putVehicle (st : Store) (id : String) (r : VehicleRec) : Store :=
  { st with vehicles := fun v => if v = id then some r else st.vehicles v }

def Store.putUser (st : Store) (id : String) (r : UserRec) : Store :=
  { st with users := fun v => if v = id then some r else st.users v }

def Store.putTracking (st : Store) (id : String) (r : TrackingRecord) : Store :=
  { st with vehicleTrackingIds :=
      fun v => if v = id then some r else st.vehicleTrackingIds v }

def Store.putLocation (st : Store) (id : String) (r : VehicleLocation) : Store :=
  { st with vehicleLocations :=
      fun v => if v = id then some r else st.vehicleLocations v }

def Store.putBooking (st : Store) (id : String) (r : BookingRec) : Store :=
  { st with bookings := fun v => if v = id then some r else st.bookings v }

section StoreSimp

variable (st : Store) (id v : String)

@[simp] theorem Store.putVehicle_vehicles (r : VehicleRec) :
    (st.putVehicle id r).vehicles v = if v = id then some r else st.vehicles v := rfl
@[simp] theorem Store.putVehicle_users (r : VehicleRec) :
    (st.putVehicle id r).users = st.users := rfl
@[simp] theorem Store.putVehicle_tracking (r : VehicleRec) :
    (st.putVehicle id r).vehicleTrackingIds = st.vehicleTrackingIds := rfl
@[simp] theorem Store.putVehicle_locations (r : VehicleRec) :
    (st.putVehicle id r).vehicleLocations = st.vehicleLocations := rfl
@[simp] theorem Store.putVehicle_bookings (r : VehicleRec) :
    (st.putVehicle id r).bookings = st.bookings := rfl

@[simp] theorem Store.putUser_users (r : UserRec) :
    (st.putUser id r).users v = if v = id then some r else st.users v := rfl
@[simp] theorem Store.putUser_vehicles (r : UserRec) :
    (st.putUser id r).vehicles = st.vehicles := rfl
@[simp] theorem Store.putUser_tracking (r : UserRec) :
    (st.putUser id r).vehicleTrackingIds = st.vehicleTrackingIds := rfl
@[simp] theorem Store.putUser_locations (r : UserRec) :
    (st.putUser id r).vehicleLocations = st.vehicleLocations := rfl
@[simp] theorem Store.putUser_bookings (r : UserRec) :
    (st.putUser id r).bookings = st.bookings := rfl

@[simp] theorem Store.putTracking_tracking (r : TrackingRecord) :
    (st.putTracking id r).vehicleTrackingIds v =
      if v = id then some r else st.vehicleTrackingIds v := rfl
@[simp] theorem Store.putTracking_vehicles (r : TrackingRecord) :
    (st.putTracking id r).vehicles = st.vehicles := rfl
@[simp] theorem Store.putTracking_users (r : TrackingRecord) :
    (st.putTracking id r).users = st.users := rfl
@[simp] theorem Store.putTracking_locations (r : TrackingRecord) :
    (st.putTracking id r).vehicleLocations = st.vehicleLocations := rfl
@[simp] theorem Store.putTracking_bookings (r : TrackingRecord) :
    (st.putTracking id r).bookings = st.bookings := rfl

@[simp] theorem Store.putLocation_locations (r : VehicleLocation) :
    (st.putLocation id r).vehicleLocations v =
      if v = id then some r else st.vehicleLocations v := rfl
@[simp] theorem Store.putLocation_vehicles (r : VehicleLocation) :
    (st.putLocation id r).vehicles = st.vehicles := rfl
@[simp] theorem Store.putLocation_users (r : VehicleLocation) :
    (st.putLocation id r).users = st.users := rfl
@[simp] theorem Store.putLocation_tracking (r : VehicleLocation) :
    (st.putLocation id r).vehicleTrackingIds = st.vehicleTrackingIds := rfl
@[simp] theorem Store.putLocation_bookings (r : VehicleLocation) :
    (st.putLocation id r).bookings = st.bookings := rfl

@[simp] theorem Store.putBooking_bookings (r : BookingRec) :
    (st.putBooking id r).bookings v = if v = id then some r else st.bookings v := rfl
@[simp] theorem Store.putBooking_vehicles (r : BookingRec) :
    (st.putBooking id r).vehicles = st.vehicles := rfl
@[simp] theorem Store.putBooking_users (r : BookingRec) :
    (st.putBooking id r).users = st.users := rfl
@[simp] theorem Store.putBooking_tracking (r : BookingRec) :
    (st.putBooking id r).vehicleTrackingIds = st.vehicleTrackingIds := rfl
@[simp] theorem Store.putBooking_locations (r : BookingRec) :
    (st.putBooking id r).vehicleLocations = st.vehicleLocations := rfl

end StoreSimp

/-- `getOrCreateTrackingId` from `fallback-location.ts`.  `cu` is the
authenticated user (`getAuth().currentUser`), `now` the value of
`Date.now()`.  The whole body is wrapped in `try/catch` in the source;
the only throwing statement in the create path reached in this model is
`requireAuth()`, whose failure is caught and answered with the locally
generated ID without persisting it. -/
def getOrCreateTrackingId (cu : Option String) (now : ℤ) (st : Store)
    (vehicleId : String) : Store × String :=
  match st.vehicleTrackingIds vehicleId with
  | some data => (st, data.trackingId)
  | none =>
      let trackingId := generateConsistentTrackingId vehicleId
      match cu with
      | none => (st, trackingId)
      | some uid =>
          (st.putTracking vehicleId
            ⟨trackingId, vehicleId, now, uid⟩, trackingId)

open Classical in
/-- JavaScript `Math.atan2 y x`. -/
noncomputable def atan2 (y x : ℝ) : ℝ :=
  if 0 < x then Real.arctan (y / x)
  else if x < 0 ∧ 0 ≤ y then Real.arctan (y / x) + Real.pi
  else if x < 0 ∧ y < 0 then Real.arctan (y / x) - Real.pi
  else if x = 0 ∧ 0 < y then Real.pi / 2
  else if x = 0 ∧ y < 0 then -(Real.pi / 2)
  else 0

/-- The haversine formula body of `calculateDistance` (Earth radius
6,371,000 m), shared verbatim between `fallback-location.ts` and
`DriverLocationUpdater.tsx`. -/
noncomputable def haversine (lat1 lon1 lat2 lon2 : ℝ) : ℝ :=
  let R : ℝ := 6371000
  let phi1 := lat1 * Real.pi / 180
  let phi2 := lat2 * Real.pi / 180
  let dphi := (lat2 - lat1) * Real.pi / 180
  let dlam := (lon2 - lon1) * Real.pi / 180
  let a := Real.sin (dphi / 2) * Real.sin (dphi / 2) +
      Real.cos phi1 * Real.cos phi2 * Real.sin (dlam / 2) * Real.sin (dlam / 2)
  let c := 2 * atan2 (Real.sqrt a) (Real.sqrt (1 - a))
  R * c

open Classical in
/-- `calculateDistance`: `if (!lat1 || !lon1 || !lat2 || !lon2) return
Infinity;` followed by the haversine formula.  The JavaScript `Infinity`
is modelled as `⊤ : EReal`, and the falsiness of the number `0` as
equality with `0`. -/
noncomputable def calculateDistance (lat1 lon1 lat2 lon2 : ℝ) : EReal :=
  if lat1 = 0 ∨ lon1 = 0 ∨ lat2 = 0 ∨ lon2 = 0 then ⊤
  else ((haversine lat1 lon1 lat2 lon2 : ℝ) : EReal)

/-- Return value `{ updated, trackingId }` of `locationService.updateLocation`. -/
structure UpdateResult where
  updated : Bool
  trackingId : String
deriving DecidableEq

/-- `options` argument of `locationService.updateLocation`. -/
structure UpdateOptions where
  forceUpdate : Option Bool := none
  previousLocation : Option (ℝ × ℝ) := none

open Classical in
/-- `locationService.updateLocation` from `fallback-location.ts`.  Mirrors
the source line by line: `requireAuth()`, `getOrCreateTrackingId`, the
always-true `shouldUpdate = options?.forceUpdate || true`, the distance
gate guarded by `!shouldUpdate && options?.previousLocation`, and the
final `set(ref(database, vehicleLocations/vehicleId), locationData)`. -/
noncomputable def locationService.updateLocation (cu : Option String) (now : ℤ)
    (st : Store) (vehicleId : String) (lat lng : ℝ)
    (options : Option UpdateOptions) :
    Except String (Store × UpdateResult) :=
  match cu with
  | none => Except.error "Not authenticated"
  | some uid =>
      let r := getOrCreateTrackingId cu now st vehicleId
      let trackingId := r.2
      let shouldUpdate :=
        (match options with
          | some o => o.forceUpdate.getD false
          | none => false) || true
      let locationData : VehicleLocation := ⟨vehicleId, trackingId, lat, lng, now, uid⟩
      let done : Except String (Store × UpdateResult) :=
        Except.ok (r.1.putLocation vehicleId locationData, ⟨true, trackingId⟩)
      if !shouldUpdate then
        match options.bind (fun o => o.previousLocation) with
        | some prev =>
            if calculateDistance prev.1 prev.2 lat lng < ((10 : ℝ) : EReal) then
              Except.ok (r.1, ⟨false, trackingId⟩)
            else done
        | none => done
      else done

/-- For an authenticated caller, `locationService.updateLocation` resolves
the tracking ID, overwrites `vehicleLocations/{vehicleId}` and reports
`updated = true`: `shouldUpdate` is `… || true`, so the early
`{ updated: false }` return is dead. -/
theorem locationService.updateLocation_auth (uid : String) (now : ℤ) (st : Store)
    (vehicleId : String) (lat lng : ℝ) (options : Option UpdateOptions) :
    locationService.updateLocation (some uid) now st vehicleId lat lng options =
      Except.ok
        ((getOrCreateTrackingId (some uid) now st vehicleId).1.putLocation vehicleId
            ⟨vehicleId, (getOrCreateTrackingId (some uid) now st vehicleId).2,
              lat, lng, now, uid⟩,
          ⟨true, (getOrCreateTrackingId (some uid) now st vehicleId).2⟩) := by
  simp [locationService.updateLocation]

/-- Named errors of `vehicleService.assignDriver`.  The source throws
`Error` objects whose messages distinguish the same five cases; the
`catch` block rethrows them with a `Failed to assign driver:` preamble
that adds no information. -/
inductive AssignError where
  | notAuthenticated
  | vehicleIdRequired
  | vehicleNotFound (vehicleId : String)
  | driverNotFound (driverId : String)
  | invalidRole
deriving DecidableEq

/-- `update(ref(database, vehicles/id), { driverId, updatedAt })`. -/
def setVehicleDriver (st : Store) (id : String) (d : Option String) (now : ℤ) :
    Store :=
  st.putVehicle id
    { (st.vehicles id).getD {} with driverId := d, updatedAt := some now }

/-- `update(ref(database, vehicles/id), { driverId: null, updatedAt })`. -/
def clearVehicleDriver (st : Store) (id : String) (now : ℤ) : Store :=
  setVehicleDriver st id none now

/-- `update(ref(database, users/id), { assignedVehicleId, updatedAt })`. -/
def setUserAssigned (st : Store) (id : String) (av : Option String) (now : ℤ) :
    Store :=
  st.putUser id
    { (st.users id).getD {} with assignedVehicleId := av, updatedAt := some now }

/-- `assignDriver` step: `if (driverData.assignedVehicleId &&
driverData.assignedVehicleId !== vehicleId)` clear the previous vehicle
of the incoming driver. -/
def clearOtherVehicleStep (st : Store) (driverData : UserRec) (vehicleId : String)
    (now : ℤ) : Store :=
  match jsStrTruthy driverData.assignedVehicleId with
  | some av => if av ≠ vehicleId then clearVehicleDriver st av now else st
  | none => st

/-- `assignDriver` step: `if (currentDriverId && currentDriverId !==
driverId)` clear the assignment of the vehicle's previous driver. -/
def clearPreviousDriverStep (st : Store) (currentDriverId : Option String)
    (driverId : String) (now : ℤ) : Store :=
  match currentDriverId with
  | some pd => if pd ≠ driverId then setUserAssigned st pd none now else st
  | none => st

/-- `vehicleService.assignDriver` from `fallback-location.ts`.  Returns the
store after the sequence of `update` calls together with the raised error,
if any; an error always aborts the remaining steps, and every error is
raised before the first write. -/
def vehicleService.assignDriver (cu : Option String) (now : ℤ) (st : Store)
    (vehicleId : String) (driverId : Option String) :
    Store × Option AssignError :=
  match cu with
  | none => (st, some AssignError.notAuthenticated)
  | some _ =>
      if vehicleId = "" then (st, some AssignError.vehicleIdRequired)
      else
        match st.vehicles vehicleId with
        | none => (st, some (AssignError.vehicleNotFound vehicleId))
        | some vehicleData =>
            let currentDriverId := jsStrTruthy vehicleData.driverId
            match jsStrTruthy driverId with
            | some d =>
                match st.users d with
                | none => (st, some (AssignError.driverNotFound d))
                | some driverData =>
                    if driverData.role ≠ some "driver" then
                      (st, some AssignError.invalidRole)
                    else
                      let st1 := clearOtherVehicleStep st driverData vehicleId now
                      let st2 := setUserAssigned st1 d (some vehicleId) now
                      let st3 := clearPreviousDriverStep st2 currentDriverId d now
                      (setVehicleDriver st3 vehicleId driverId now, none)
            | none =>
                let st1 := clearPreviousDriverStep st currentDriverId
                  (match driverId with | some s => s | none => "") now
                (setVehicleDriver st1 vehicleId driverId now, none)

/-- `vehicleService.markVehicleAsInUse`:
`update(vehicles/id, { available: false, updatedAt })`. -/
def vehicleService.markVehicleAsInUse (st : Store) (vehicleId : String)
    (now : ℤ) : Store :=
  st.putVehicle vehicleId
    { (st.vehicles vehicleId).getD {} with
        available := some false
        updatedAt := some now }

/-- `vehicleService.markVehicleAsAvailable`:
`update(vehicles/id, { available: true, updatedAt })`. -/
def vehicleService.markVehicleAsAvailable (st : Store) (vehicleId : String)
    (now : ℤ) : Store :=
  st.putVehicle vehicleId
    { (st.vehicles vehicleId).getD {} with
        available := some true
        updatedAt := some now }

/-- `bookingService.createBooking` from `fallback-location.ts`: push a new
booking record in state `pending_payment` / `pending`, then
`markVehicleAsInUse(bookingData.vehicleId)`.  `newId` stands for the key
produced by `push`, `now` for `Date.now()`.  Returns the new store and the
booking ID. -/
def bookingService.createBooking (st : Store) (bookingData : BookingInput)
    (newId : String) (now : ℤ) : Store × String :=
  let booking : BookingRec :=
    { id := newId
      shortId := generateShortId newId
      userId := bookingData.userId
      vehicleId := bookingData.vehicleId
      driverId := bookingData.driverId
      pickupAddress := bookingData.pickupAddress
      destinationAddress := bookingData.destinationAddress
      pickupLat := bookingData.pickupLat
      pickupLng := bookingData.pickupLng
      destinationLat := bookingData.destinationLat
      destinationLng := bookingData.destinationLng
      distance := bookingData.distance
      estimatedTime := bookingData.estimatedTime
      amount := bookingData.amount
      status := "pending_payment"
      paymentStatus := "pending"
      createdAt := now
      updatedAt := now }
  let st1 := st.putBooking newId booking
  (vehicleService.markVehicleAsInUse st1 bookingData.vehicleId now, newId)

/-- `{...updates, updatedAt: now}` merged into a booking record by
Firebase `update`. -/
def applyBookingUpdate (b : BookingRec) (updates : BookingUpdate) (now : ℤ) :
    BookingRec :=
  { b with
      status := updates.status.getD b.status
      shipmentId := match updates.shipmentId with
        | some s => some s
        | none => b.shipmentId
      paymentStatus := updates.paymentStatus.getD b.paymentStatus
      paymentId := match updates.paymentId with
        | some s => some s
        | none => b.paymentId
      updatedAt := now }

/-- `bookingService.updateBooking` from `fallback-location.ts`: fail when
the booking is absent, merge the update, and when the new status is
`completed` or `cancelled` and the booking references a vehicle, mark that
vehicle available again. -/
def bookingService.updateBooking (st : Store) (bookingId : String)
    (updates : BookingUpdate) (now : ℤ) : Store × Option String :=
  match st.bookings bookingId with
  | none => (st, some "Booking not found")
  | some current =>
      let st1 := st.putBooking bookingId (applyBookingUpdate current updates now)
      if (updates.status = some "completed" ∨ updates.status = some "cancelled")
          ∧ current.vehicleId ≠ "" then
        (vehicleService.markVehicleAsAvailable st1 current.vehicleId now, none)
      else
        (st1, none)

/-- The `source` tag of a reading in `DriverLocationUpdater.tsx`. -/
inductive Source where
  | gps
  | ip
deriving DecidableEq

/-- `const minDistance = source === 'gps' ? 10 : 100`. -/
def minDistance : Source → EReal
  | Source.gps => ((10 : ℝ) : EReal)
  | Source.ip => ((100 : ℝ) : EReal)

/-- The component-local refs of `DriverLocationUpdater`:
`lastUpdateRef.current` (initially `0`) and `lastLocationRef.current`
(initially `null`). -/
structure DriverLocalState where
  lastUpdate : ℤ
  lastLocation : Option (ℝ × ℝ)

open Classical in
/-- The component-level `updateLocation` of `DriverLocationUpdater.tsx`:
the 5000 ms time gate, then the source-dependent distance gate over
`calculateDistance`, then the ref updates, the read of the previously
stored location, and the call into `locationService.updateLocation` with
`forceUpdate: forceUpdate || source === 'ip'`.  The surrounding
`try/catch` that absorbs a rejection of the service call is modelled by
the `Except.error` branch.  Returns the new refs, the new store, and
whether the service reported `updated`. -/
noncomputable def driverUpdateLocation (cu : Option String) (now : ℤ)
    (ls : DriverLocalState) (st : Store) (vehicleId : String)
    (latitude longitude : ℝ) (source : Source) (forceUpdate : Bool) :
    DriverLocalState × Store × Bool :=
  if forceUpdate = false ∧ now - ls.lastUpdate < 5000 then (ls, st, false)
  else
    let proceed : DriverLocalState × Store × Bool :=
      let ls2 : DriverLocalState := ⟨now, some (latitude, longitude)⟩
      let previousLocation :=
        (st.vehicleLocations vehicleId).map (fun d => (d.lat, d.lng))
      match locationService.updateLocation cu now st vehicleId latitude longitude
          (some ⟨some (forceUpdate || decide (source = Source.ip)),
            previousLocation⟩) with
      | Except.ok (st2, res) => (ls2, st2, res.updated)
      | Except.error _ => (ls2, st, false)
    match ls.lastLocation with
    | some prev =>
        if forceUpdate = false then
          if calculateDistance prev.1 prev.2 latitude longitude <
              minDistance source then
            (ls, st, false)
          else proceed
        else proceed
    | none => proceed

/-- The possible outcomes of one `fetch` against an IP-geolocation
endpoint in `getIPLocation`: a network/HTTP/abort failure (or non-OK
response), or a JSON body whose `latitude` / `longitude` fields may be
absent. -/
inductive FetchOutcome where
  | fail
  | ok (latitude longitude : Option ℝ)

/-- One issued endpoint request together with the abort timeout armed
for it (`setTimeout(() => controller.abort(), 5000)`). -/
structure ServiceRequest where
  url : String
  timeoutMs : ℕ
deriving DecidableEq

/-- The ordered endpoint list of `getIPLocation` in
`DriverLocationUpdater.tsx`. -/
def ipServices : List String :=
  ["https://ipapi.co/json/", "https://ipinfo.io/json/",
    "https://geolocation-db.com/json/"]

/-- The hardcoded fallback city coordinates of `getIPLocation` in
`DriverLocationUpdater.tsx` (Delhi, Mumbai, Bangalore, Chennai,
Pondicherry). -/
def indianCities : List (ℝ × ℝ) :=
  [(28.6139, 77.2090), (19.0760, 72.8777), (12.9716, 77.5946),
    (13.0827, 80.2707), (11.9327, 79.8339)]

open Classical in
/-- The `for (const service of services)` loop of `getIPLocation`: try
each endpoint in turn with a 5000 ms abort timeout, return the first
response whose `latitude` and `longitude` are truthy (`data.latitude &&
data.longitude`; the number `0` is falsy), and fall through otherwise.
Returns the issued requests and the coordinate found, if any. -/
noncomputable def ipLoop (outcomes : ℕ → FetchOutcome) :
    List String → ℕ → List ServiceRequest × Option (ℝ × ℝ)
  | [], _ => ([], none)
  | s :: rest, i =>
      let req : ServiceRequest := ⟨s, 5000⟩
      match outcomes i with
      | FetchOutcome.ok (some la) (some lo) =>
          if la ≠ 0 ∧ lo ≠ 0 then ([req], some (la, lo))
          else
            let r := ipLoop outcomes rest (i + 1)
            (req :: r.1, r.2)
      | FetchOutcome.ok _ _ =>
          let r := ipLoop outcomes rest (i + 1)
          (req :: r.1, r.2)
      | FetchOutcome.fail =>
          let r := ipLoop outcomes rest (i + 1)
          (req :: r.1, r.2)

open Classical in
/-- `getIPLocation` from `DriverLocationUpdater.tsx`.  `outcomes` gives the
result of the fetch against the `i`-th endpoint, `rand` models
`Math.floor(Math.random() * indianCities.length)`, and `tryThrows` models
the outer `catch` (an exception escaping the `try` body), which answers
the hardcoded centroid `(20.5937, 78.9629)`. -/
noncomputable def getIPLocation (outcomes : ℕ → FetchOutcome) (rand : Fin 5)
    (tryThrows : Bool) : ℝ × ℝ :=
  if tryThrows then (20.5937, 78.9629)
  else
    match (ipLoop outcomes ipServices 0).2 with
    | some c => c
    | none => indianCities.get (Fin.cast (show 5 = indianCities.length from rfl) rand)

/-- `GeolocationPositionError` codes. -/
inductive GeoErrorCode where
  | permissionDenied
  | positionUnavailable
  | timeout
deriving DecidableEq

/-- Outcome of one `navigator.geolocation.getCurrentPosition` call. -/
inductive GeoOutcome where
  | success (lat lng accuracy : ℝ)
  | error (code : GeoErrorCode)

/-- One one-shot GPS attempt as issued by `tryGPSLocation`: the
`retryCount` it ran with, the options passed to `getCurrentPosition`,
and the backoff delay of the `setTimeout` that scheduled it (`none` for
the round's first attempt). -/
structure GeoAttempt where
  retryCount : ℕ
  enableHighAccuracy : Bool
  timeoutMs : ℕ
  maximumAge : ℕ
  delayBefore : Option ℕ
deriving DecidableEq

/-- How one acquisition round ends: GPS success (the promise resolves
`true`), hand-off to IP fallback with a force-admitted `source = 'ip'`
update, or the `retryCount >= 3` guard returning `false` without an
attempt. -/
inductive RoundResult where
  | acquired
  | ipFallback (source : Source) (forceAdmit : Bool)
  | gaveUp
deriving DecidableEq

/-- One acquisition round of `tryGPSLocation` / `handleGeolocationError`
from `DriverLocationUpdater.tsx`, started at `retryCount` (the UI entry
point starts it at `0` with no pending delay).  `f k` is the outcome of
the attempt with `retryCount = k`.  Options mirror the source:
`enableHighAccuracy: retryCount === 0`, `timeout: 15000`,
`maximumAge: retryCount > 0 ? 30000 : 0`.  On `TIMEOUT` with
`retryCount < 2` the next attempt is scheduled after
`2000 * (retryCount + 1)` ms; otherwise (and on `PERMISSION_DENIED` /
`POSITION_UNAVAILABLE`) the session switches to IP fallback and
force-admits an IP-sourced location (`updateLocation(…, 'ip', true)`). -/
def gpsRound (f : ℕ → GeoOutcome) (retryCount : ℕ) (delayBefore : Option ℕ) :
    List GeoAttempt × RoundResult :=
  if 3 ≤ retryCount then ([], RoundResult.gaveUp)
  else
    let att : GeoAttempt :=
      ⟨retryCount, decide (retryCount = 0), 15000,
        if 0 < retryCount then 30000 else 0, delayBefore⟩
    match f retryCount with
    | GeoOutcome.success _ _ _ => ([att], RoundResult.acquired)
    | GeoOutcome.error GeoErrorCode.permissionDenied =>
        ([att], RoundResult.ipFallback Source.ip true)
    | GeoOutcome.error GeoErrorCode.positionUnavailable =>
        ([att], RoundResult.ipFallback Source.ip true)
    | GeoOutcome.error GeoErrorCode.timeout =>
        if h : retryCount < 2 then
          let rest := gpsRound f (retryCount + 1) (some (2000 * (retryCount + 1)))
          (att :: rest.1, rest.2)
        else ([att], RoundResult.ipFallback Source.ip true)
termination_by 3 - retryCount
decreasing_by omega

/-- C5: Tracking-ID derivation is a pure function of the vehicle ID:
`generateConsistentTrackingId` equals, for every `vehicleId`, the
spec-side derivation `trackingIdSpec` — up to 4 alphanumeric characters
of the ID (uppercased) concatenated with the 4-digit zero-padded value of
a polynomial rolling hash (`h ↦ 31·h + c` wrapped to 32 bits, i.e.
`((h << 5) - h) + c` of the source) of the full ID taken modulo 10000.
Being a pure function, any two computations on the same `vehicleId`
produce identical strings. -/
theorem claim_C5 (vehicleId : String) :
    generateConsistentTrackingId vehicleId = trackingIdSpec vehicleId := by
  have hstep : (fun h (ch : Char) => jsHashStep h ch.toNat) =
      fun h ch => toInt32 (31 * h + (ch.toNat : ℤ)) :=
    funext fun h => funext fun ch => jsHashStep_eq_rolling h ch.toNat
  simp only [generateConsistentTrackingId, trackingIdSpec, rollingHash31, hstep]

/-- C6: `getOrCreateTrackingId` is idempotent: after one authenticated call
for `vehicleId`, a second call (under any authentication state, at any
later time) returns the same tracking ID and leaves the store exactly as
the first call left it — when the record exists, the stored ID is
returned unchanged and nothing is written. -/
theorem claim_C6 (uid : String) (now₁ : ℤ) (st : Store) (vehicleId : String)
    (cu₂ : Option String) (now₂ : ℤ) :
    getOrCreateTrackingId cu₂ now₂
        (getOrCreateTrackingId (some uid) now₁ st vehicleId).1 vehicleId =
      ((getOrCreateTrackingId (some uid) now₁ st vehicleId).1,
        (getOrCreateTrackingId (some uid) now₁ st vehicleId).2) := by
  cases h : st.vehicleTrackingIds vehicleId with
  | some data => simp [getOrCreateTrackingId, h]
  | none => simp [getOrCreateTrackingId, h]

/-- C1: every authenticated call to `locationService.updateLocation`,
whatever the `forceUpdate` flag or `previousLocation` option, writes the
location record to `vehicleLocations/{vehicleId}` and returns
`{ updated: true, trackingId }`; the `{ updated: false }` branch is
unreachable because `shouldUpdate = options?.forceUpdate || true` is
always `true`. -/
theorem claim_C1 (uid : String) (now : ℤ) (st : Store) (vehicleId : String)
    (lat lng : ℝ) (options : Option UpdateOptions) :
    ∃ st2 : Store,
      locationService.updateLocation (some uid) now st vehicleId lat lng options =
          Except.ok (st2,
            ⟨true, (getOrCreateTrackingId (some uid) now st vehicleId).2⟩) ∧
        st2.vehicleLocations vehicleId =
          some ⟨vehicleId, (getOrCreateTrackingId (some uid) now st vehicleId).2,
            lat, lng, now, uid⟩ := by
  refine ⟨_, locationService.updateLocation_auth uid now st vehicleId lat lng options, ?_⟩
  simp

/-- C4: `createBooking` persists the booking with status `pending_payment`
and paymentStatus `pending` and then sets the referenced vehicle's
`available` field to `false`; `updateBooking` with status `completed` or
`cancelled` sets that vehicle's `available` field back to `true`; with any
other status value the vehicles branch of the store is untouched. -/
theorem claim_C4 (st : Store) (bd : BookingInput) (newId : String) (now : ℤ) :
    (((bookingService.createBooking st bd newId now).1.bookings newId).map
        (fun b => (b.status, b.paymentStatus)) =
      some ("pending_payment", "pending")) ∧
    (((bookingService.createBooking st bd newId now).1.vehicles bd.vehicleId).map
        (fun vr => vr.available) = some (some false)) ∧
    (∀ upd now₂, (upd.status = some "completed" ∨ upd.status = some "cancelled") →
      bd.vehicleId ≠ "" →
      ((bookingService.updateBooking
          (bookingService.createBooking st bd newId now).1 newId upd now₂).1.vehicles
          bd.vehicleId).map (fun vr => vr.available) = some (some true)) ∧
    (∀ st2 bid upd now₂, upd.status ≠ some "completed" →
      upd.status ≠ some "cancelled" →
      (bookingService.updateBooking st2 bid upd now₂).1.vehicles = st2.vehicles) := by
  refine ⟨?_, ?_, ?_, ?_⟩
  · simp [bookingService.createBooking, vehicleService.markVehicleAsInUse]
  · simp [bookingService.createBooking, vehicleService.markVehicleAsInUse]
  · intro upd now₂ hstatus hveh
    have hbook : (bookingService.createBooking st bd newId now).1.bookings newId =
        some ⟨newId, generateShortId newId, bd.userId, bd.vehicleId, bd.driverId,
          bd.pickupAddress, bd.destinationAddress, bd.pickupLat, bd.pickupLng,
          bd.destinationLat, bd.destinationLng, bd.distance, bd.estimatedTime,
          bd.amount, "pending_payment", "pending", now, now, none, none⟩ := by
      simp [bookingService.createBooking, vehicleService.markVehicleAsInUse]
    simp only [bookingService.updateBooking, hbook]
    rw [if_pos ⟨hstatus, hveh⟩]
    simp [vehicleService.markVehicleAsAvailable]
  · intro st2 bid upd now₂ h1 h2
    cases hb : st2.bookings bid with
    | none => simp [bookingService.updateBooking, hb]
    | some current =>
        simp only [bookingService.updateBooking, hb]
        rw [if_neg (by rintro ⟨h | h, -⟩ <;> simp_all)]
        simp

/-- Witness for C4 at a concrete store and booking. -/
theorem claim_C4_witness :
    ((bookingService.updateBooking
        (bookingService.createBooking Store.empty
          ⟨"u1", "v1", "d1", "a", "b", 1, 2, 3, 4, 5, "10 min", 6⟩ "bk1" 0).1
        "bk1" ⟨some "completed", none, none, none⟩ 7).1.vehicles "v1").map
      (fun vr => vr.available) = some (some true) :=
  (claim_C4 Store.empty ⟨"u1", "v1", "d1", "a", "b", 1, 2, 3, 4, 5, "10 min", 6⟩
      "bk1" 0).2.2.1 ⟨some "completed", none, none, none⟩ 7 (Or.inl rfl)
    (by decide)

/-- C7: for an authenticated call `assignDriver(vehicleId, driverId)` with a
provided (non-null, non-empty) driver ID: an absent vehicle record fails
with `vehicleNotFound`; otherwise an absent driver record fails with
`driverNotFound`; otherwise a user whose role is not `driver` fails with
`invalidRole`.  Each error aborts the protocol at the failing check, and
since all three checks precede every write, the returned store is the
input store unchanged. -/
theorem claim_C7 (u : String) (now : ℤ) (st : Store) (vehicleId d : String)
    (hv : vehicleId ≠ "") (hd : d ≠ "") :
    (st.vehicles vehicleId = none →
      vehicleService.assignDriver (some u) now st vehicleId (some d) =
        (st, some (AssignError.vehicleNotFound vehicleId))) ∧
    (∀ vr, st.vehicles vehicleId = some vr → st.users d = none →
      vehicleService.assignDriver (some u) now st vehicleId (some d) =
        (st, some (AssignError.driverNotFound d))) ∧
    (∀ vr ur, st.vehicles vehicleId = some vr → st.users d = some ur →
      ur.role ≠ some "driver" →
      vehicleService.assignDriver (some u) now st vehicleId (some d) =
        (st, some AssignError.invalidRole)) := by
  refine ⟨fun h => ?_, fun vr hvr hu => ?_, fun vr ur hvr hu hrole => ?_⟩
  · simp [vehicleService.assignDriver, hv, h]
  · simp [vehicleService.assignDriver, hv, hd, hvr, hu]
  · simp only [vehicleService.assignDriver, hvr, hu, if_neg hv,
      jsStrTruthy_some d hd]
    rw [if_pos hrole]

/-- Witness for C7: assigning a driver to an absent vehicle fails with
`vehicleNotFound` and leaves the empty store untouched. -/
theorem claim_C7_witness :
    vehicleService.assignDriver (some "admin") 0 Store.empty "v1" (some "d1") =
      (Store.empty, some (AssignError.vehicleNotFound "v1")) :=
  (claim_C7 "admin" 0 Store.empty "v1" "d1" (by decide) (by decide)).1 rfl

/-- On coordinates away from the equator and prime meridian,
`calculateDistance` is the haversine distance. -/
theorem calculateDistance_ne_zero (a b c d : ℝ) (h1 : a ≠ 0) (h2 : b ≠ 0)
    (h3 : c ≠ 0) (h4 : d ≠ 0) :
    calculateDistance a b c d = ((haversine a b c d : ℝ) : EReal) := by
  rw [calculateDistance, if_neg]
  push_neg
  exact ⟨h1, h2, h3, h4⟩

/-- When any coordinate is `0`, the `!lat1 || !lon1 || !lat2 || !lon2`
guard of `calculateDistance` fires and the function returns `Infinity`. -/
theorem calculateDistance_zero (a b c d : ℝ)
    (h : a = 0 ∨ b = 0 ∨ c = 0 ∨ d = 0) :
    calculateDistance a b c d = ⊤ := by
  rw [calculateDistance, if_pos h]

/-- C3: the driver-side throttle admits a reading exactly when
`forceUpdate` is set, or the elapsed time since the last admitted update
is at least 5000 ms and (there is no last admitted coordinate, or the
haversine displacement from it reaches the source threshold: 10 m for
GPS, 100 m for IP).  The time gate is decided first (a non-force reading
inside the 5000 ms window is dropped whatever its displacement), and an
admitted reading is persisted at `vehicleLocations/{vehicleId}` while a
dropped one leaves the store unchanged.  The coordinates are assumed off
the `0`-guard of `calculateDistance` (that edge case is C10). -/
theorem claim_C3 (uid : String) (now : ℤ) (ls : DriverLocalState) (st : Store)
    (vehicleId : String) (lat lng : ℝ) (source : Source) (forceUpdate : Bool)
    (hprev : ∀ p : ℝ × ℝ, ls.lastLocation = some p → p.1 ≠ 0 ∧ p.2 ≠ 0)
    (hlat : lat ≠ 0) (hlng : lng ≠ 0) :
    ((driverUpdateLocation (some uid) now ls st vehicleId lat lng source
        forceUpdate).2.2 = true ↔
      forceUpdate = true ∨ (¬(now - ls.lastUpdate < 5000) ∧
        ∀ p : ℝ × ℝ, ls.lastLocation = some p →
          ¬(((haversine p.1 p.2 lat lng : ℝ) : EReal) < minDistance source))) ∧
    ((driverUpdateLocation (some uid) now ls st vehicleId lat lng source
        forceUpdate).2.2 = true →
      (driverUpdateLocation (some uid) now ls st vehicleId lat lng source
          forceUpdate).2.1.vehicleLocations vehicleId =
        some ⟨vehicleId, (getOrCreateTrackingId (some uid) now st vehicleId).2,
          lat, lng, now, uid⟩) ∧
    ((driverUpdateLocation (some uid) now ls st vehicleId lat lng source
        forceUpdate).2.2 = false →
      (driverUpdateLocation (some uid) now ls st vehicleId lat lng source
          forceUpdate).2.1 = st) := by
  cases forceUpdate with
  | true =>
      have hrun : driverUpdateLocation (some uid) now ls st vehicleId lat lng
          source true =
          (⟨now, some (lat, lng)⟩,
            (getOrCreateTrackingId (some uid) now st vehicleId).1.putLocation
              vehicleId ⟨vehicleId,
                (getOrCreateTrackingId (some uid) now st vehicleId).2,
                lat, lng, now, uid⟩, true) := by
        cases hloc : ls.lastLocation with
        | none =>
            simp [driverUpdateLocation, locationService.updateLocation_auth, hloc]
        | some prev =>
            simp [driverUpdateLocation, locationService.updateLocation_auth, hloc]
      rw [hrun]
      refine ⟨by simp, fun _ => by simp, by simp⟩
  | false =>
      by_cases ht : now - ls.lastUpdate < 5000
      · have hrun : driverUpdateLocation (some uid) now ls st vehicleId lat lng
            source false = (ls, st, false) := by
          simp [driverUpdateLocation, ht]
        rw [hrun]
        refine ⟨?_, by simp, fun _ => rfl⟩
        simp [ht]
      · cases hloc : ls.lastLocation with
        | none =>
            have hrun : driverUpdateLocation (some uid) now ls st vehicleId lat
                lng source false =
                (⟨now, some (lat, lng)⟩,
                  (getOrCreateTrackingId (some uid) now st vehicleId).1.putLocation
                    vehicleId ⟨vehicleId,
                      (getOrCreateTrackingId (some uid) now st vehicleId).2,
                      lat, lng, now, uid⟩, true) := by
              simp [driverUpdateLocation, locationService.updateLocation_auth,
                hloc, ht]
            rw [hrun]
            refine ⟨?_, fun _ => by simp, by simp⟩
            simp only [true_iff]
            exact Or.inr ⟨ht, fun p hp => by simp at hp⟩
        | some prev =>
            have hd := calculateDistance_ne_zero prev.1 prev.2 lat lng
              (hprev prev hloc).1 (hprev prev hloc).2 hlat hlng
            by_cases hlt : ((haversine prev.1 prev.2 lat lng : ℝ) : EReal) <
                minDistance source
            · have hrun : driverUpdateLocation (some uid) now ls st vehicleId
                  lat lng source false = (ls, st, false) := by
                simp [driverUpdateLocation, hloc, ht, hd, hlt]
              rw [hrun]
              refine ⟨?_, by simp, fun _ => rfl⟩
              constructor
              · intro h; exact absurd h (by simp)
              · rintro (h | ⟨-, h⟩)
                · exact absurd h (by simp)
                · exact absurd hlt (h prev rfl)
            · have hrun : driverUpdateLocation (some uid) now ls st vehicleId
                  lat lng source false =
                  (⟨now, some (lat, lng)⟩,
                    (getOrCreateTrackingId (some uid) now st
                      vehicleId).1.putLocation vehicleId ⟨vehicleId,
                        (getOrCreateTrackingId (some uid) now st vehicleId).2,
                        lat, lng, now, uid⟩, true) := by
                simp [driverUpdateLocation, locationService.updateLocation_auth,
                  hloc, ht, hd, hlt]
              rw [hrun]
              refine ⟨?_, fun _ => by simp, by simp⟩
              simp only [true_iff]
              refine Or.inr ⟨ht, fun p hp => ?_⟩
              injection hp with hpp
              subst hpp
              exact hlt

/-- Witness for C3: a forced reading is admitted from a fresh session. -/
theorem claim_C3_witness :
    (driverUpdateLocation (some "u") 0 ⟨0, none⟩ Store.empty "v1" 1 1
        Source.gps true).2.2 = true :=
  ((claim_C3 "u" 0 ⟨0, none⟩ Store.empty "v1" 1 1 Source.gps true
      (fun p hp => by simp at hp) one_ne_zero one_ne_zero).1).mpr (Or.inl rfl)

/-- C10: whenever any of the four coordinates is `0`, `calculateDistance`
returns `Infinity` (`⊤`) instead of the haversine distance, and
consequently a non-force reading whose previous or new position has a `0`
coordinate is always admitted by the driver-side throttle once the
5-second time gate has elapsed, since `Infinity` is below no threshold. -/
theorem claim_C10 :
    (∀ lat1 lon1 lat2 lon2 : ℝ,
      (lat1 = 0 ∨ lon1 = 0 ∨ lat2 = 0 ∨ lon2 = 0) →
      calculateDistance lat1 lon1 lat2 lon2 = ⊤) ∧
    (∀ (uid : String) (now : ℤ) (ls : DriverLocalState) (st : Store)
      (vehicleId : String) (lat lng : ℝ) (source : Source) (prev : ℝ × ℝ),
      ls.lastLocation = some prev →
      ¬(now - ls.lastUpdate < 5000) →
      (prev.1 = 0 ∨ prev.2 = 0 ∨ lat = 0 ∨ lng = 0) →
      (driverUpdateLocation (some uid) now ls st vehicleId lat lng source
        false).2.2 = true) := by
  refine ⟨fun lat1 lon1 lat2 lon2 h => calculateDistance_zero lat1 lon1 lat2 lon2 h,
    fun uid now ls st vehicleId lat lng source prev hloc ht h0 => ?_⟩
  have hrun : driverUpdateLocation (some uid) now ls st vehicleId lat lng
      source false =
      (⟨now, some (lat, lng)⟩,
        (getOrCreateTrackingId (some uid) now st vehicleId).1.putLocation
          vehicleId ⟨vehicleId,
            (getOrCreateTrackingId (some uid) now st vehicleId).2,
            lat, lng, now, uid⟩, true) := by
    simp [driverUpdateLocation, hloc, ht,
      calculateDistance_zero prev.1 prev.2 lat lng h0, not_top_lt,
      locationService.updateLocation_auth]
  rw [hrun]

/-- Witness for C10: a zero coordinate yields `Infinity`, and a stationary
reading at `(0, 77)` taken 6 s after a previous admitted reading at the
same point is admitted rather than distance-rejected. -/
theorem claim_C10_witness :
    calculateDistance 0 1 2 3 = ⊤ ∧
    (driverUpdateLocation (some "u") 6000 ⟨0, some (0, 77)⟩ Store.empty "v1"
        0 77 Source.gps false).2.2 = true :=
  ⟨claim_C10.1 0 1 2 3 (Or.inl rfl),
    claim_C10.2 "u" 6000 ⟨0, some (0, 77)⟩ Store.empty "v1" 0 77 Source.gps
      (0, 77) rfl (by decide) (Or.inl rfl)⟩

/-- The attempt record made at `retryCount = r` scheduled with delay `d`. -/
def mkAttempt (r : ℕ) (d : Option ℕ) : GeoAttempt :=
  ⟨r, decide (r = 0), 15000, if 0 < r then 30000 else 0, d⟩

theorem gpsRound_success (f : ℕ → GeoOutcome) (r : ℕ) (d : Option ℕ)
    (la lo acc : ℝ) (hr : r < 3) (h : f r = GeoOutcome.success la lo acc) :
    gpsRound f r d = ([mkAttempt r d], RoundResult.acquired) := by
  rw [gpsRound]
  simp [Nat.not_le.mpr hr, h, mkAttempt]

theorem gpsRound_denied (f : ℕ → GeoOutcome) (r : ℕ) (d : Option ℕ)
    (hr : r < 3) (h : f r = GeoOutcome.error GeoErrorCode.permissionDenied) :
    gpsRound f r d = ([mkAttempt r d], RoundResult.ipFallback Source.ip true) := by
  rw [gpsRound]
  simp [Nat.not_le.mpr hr, h, mkAttempt]

theorem gpsRound_unavailable (f : ℕ → GeoOutcome) (r : ℕ) (d : Option ℕ)
    (hr : r < 3) (h : f r = GeoOutcome.error GeoErrorCode.positionUnavailable) :
    gpsRound f r d = ([mkAttempt r d], RoundResult.ipFallback Source.ip true) := by
  rw [gpsRound]
  simp [Nat.not_le.mpr hr, h, mkAttempt]

theorem gpsRound_timeout_retry (f : ℕ → GeoOutcome) (r : ℕ) (d : Option ℕ)
    (hr : r < 2) (h : f r = GeoOutcome.error GeoErrorCode.timeout) :
    gpsRound f r d =
      (mkAttempt r d :: (gpsRound f (r + 1) (some (2000 * (r + 1)))).1,
        (gpsRound f (r + 1) (some (2000 * (r + 1)))).2) := by
  rw [gpsRound]
  simp [Nat.not_le.mpr (by omega : r < 3), h, hr, mkAttempt]

theorem gpsRound_timeout_last (f : ℕ → GeoOutcome) (r : ℕ) (d : Option ℕ)
    (hr3 : r < 3) (hr : ¬r < 2) (h : f r = GeoOutcome.error GeoErrorCode.timeout) :
    gpsRound f r d = ([mkAttempt r d], RoundResult.ipFallback Source.ip true) := by
  rw [gpsRound]
  simp [Nat.not_le.mpr hr3, h, hr, mkAttempt]

/-- C8: an acquisition round started at `retryCount = 0` makes at most 3
one-shot GPS attempts; every attempt uses `timeout: 15000`, requests high
accuracy only at `retryCount = 0`, accepts cached positions up to 30 s old
only on retries, and every retry is scheduled after a backoff delay of
`2000 * retryCount` ms; and when all three attempts time out the round
ends in IP fallback with a force-admitted IP-sourced location. -/
theorem claim_C8 (f : ℕ → GeoOutcome) :
    (gpsRound f 0 none).1.length ≤ 3 ∧
    (∀ a ∈ (gpsRound f 0 none).1,
      a.timeoutMs = 15000 ∧
      a.enableHighAccuracy = decide (a.retryCount = 0) ∧
      a.maximumAge = (if 0 < a.retryCount then 30000 else 0) ∧
      a.delayBefore =
        (if a.retryCount = 0 then none else some (2000 * a.retryCount))) ∧
    ((∀ k, f k = GeoOutcome.error GeoErrorCode.timeout) →
      (gpsRound f 0 none).2 = RoundResult.ipFallback Source.ip true ∧
      (gpsRound f 0 none).1.length = 3) := by
  rcases h0 : f 0 with la | c0
  case success lo acc =>
    rw [gpsRound_success f 0 none la lo acc (by omega) h0]
    refine ⟨by simp, by simp [mkAttempt], fun hall => ?_⟩
    rw [hall 0] at h0
    cases h0
  case error =>
    cases c0 with
    | permissionDenied =>
        rw [gpsRound_denied f 0 none (by omega) h0]
        refine ⟨by simp, by simp [mkAttempt], fun hall => ?_⟩
        rw [hall 0] at h0
        cases h0
    | positionUnavailable =>
        rw [gpsRound_unavailable f 0 none (by omega) h0]
        refine ⟨by simp, by simp [mkAttempt], fun hall => ?_⟩
        rw [hall 0] at h0
        cases h0
    | timeout =>
        rw [gpsRound_timeout_retry f 0 none (by omega) h0]
        rcases h1 : f 1 with la1 | c1
        case success lo1 acc1 =>
          rw [gpsRound_success f 1 (some (2000 * 1)) la1 lo1 acc1 (by omega) h1]
          refine ⟨by simp, by simp [mkAttempt], fun hall => ?_⟩
          rw [hall 1] at h1
          cases h1
        case error =>
          cases c1 with
          | permissionDenied =>
              rw [gpsRound_denied f 1 (some (2000 * 1)) (by omega) h1]
              refine ⟨by simp, by simp [mkAttempt], fun hall => ?_⟩
              rw [hall 1] at h1
              cases h1
          | positionUnavailable =>
              rw [gpsRound_unavailable f 1 (some (2000 * 1)) (by omega) h1]
              refine ⟨by simp, by simp [mkAttempt], fun hall => ?_⟩
              rw [hall 1] at h1
              cases h1
          | timeout =>
              rw [gpsRound_timeout_retry f 1 (some (2000 * 1)) (by omega) h1]
              rcases h2 : f 2 with la2 | c2
              case success lo2 acc2 =>
                rw [gpsRound_success f 2 (some (2000 * 2)) la2 lo2 acc2
                  (by omega) h2]
                refine ⟨by simp, by simp [mkAttempt], fun hall => ?_⟩
                rw [hall 2] at h2
                cases h2
              case error =>
                cases c2 with
                | permissionDenied =>
                    rw [gpsRound_denied f 2 (some (2000 * 2)) (by omega) h2]
                    refine ⟨by simp, by simp [mkAttempt], fun hall => ?_⟩
                    rw [hall 2] at h2
                    cases h2
                | positionUnavailable =>
                    rw [gpsRound_unavailable f 2 (some (2000 * 2)) (by omega) h2]
                    refine ⟨by simp, by simp [mkAttempt], fun hall => ?_⟩
                    rw [hall 2] at h2
                    cases h2
                | timeout =>
                    rw [gpsRound_timeout_last f 2 (some (2000 * 2)) (by omega)
                      (by omega) h2]
                    exact ⟨by simp, by simp [mkAttempt],
                      fun _ => ⟨rfl, by simp⟩⟩

/-- Witness for C8: when every attempt times out, the round force-admits an
IP-sourced location after exactly three attempts. -/
theorem claim_C8_witness :
    (gpsRound (fun _ => GeoOutcome.error GeoErrorCode.timeout) 0 none).2 =
      RoundResult.ipFallback Source.ip true :=
  ((claim_C8 (fun _ => GeoOutcome.error GeoErrorCode.timeout)).2.2
    (fun _ => rfl)).1

/-- The requests issued by the `getIPLocation` loop are the endpoints in
list order, each armed with the 5000 ms abort timeout, stopping at the
first truthy response. -/
theorem ipLoop_requests (outcomes : ℕ → FetchOutcome) :
    ∀ (l : List String) (i : ℕ),
      (ipLoop outcomes l i).1.length ≤ l.length ∧
      (ipLoop outcomes l i).1 =
        (l.take (ipLoop outcomes l i).1.length).map (fun s => ⟨s, 5000⟩) := by
  intro l
  induction l with
  | nil => intro i; simp [ipLoop]
  | cons s rest ih =>
      intro i
      rcases ho : outcomes i with _ | ⟨la, lo⟩
      · have := ih (i + 1)
        rw [ipLoop, ho]
        constructor
        · simpa using this.1
        · simp only [List.length_cons, List.take_succ_cons, List.map_cons]
          exact congrArg _ this.2
      · cases la with
        | none =>
            have := ih (i + 1)
            rw [ipLoop, ho]
            cases lo with
            | none =>
                constructor
                · simpa using this.1
                · simp only [List.length_cons, List.take_succ_cons, List.map_cons]
                  exact congrArg _ this.2
            | some y =>
                constructor
                · simpa using this.1
                · simp only [List.length_cons, List.take_succ_cons, List.map_cons]
                  exact congrArg _ this.2
        | some x =>
            cases lo with
            | none =>
                have := ih (i + 1)
                rw [ipLoop, ho]
                constructor
                · simpa using this.1
                · simp only [List.length_cons, List.take_succ_cons, List.map_cons]
                  exact congrArg _ this.2
            | some y =>
                by_cases hxy : x ≠ 0 ∧ y ≠ 0
                · rw [ipLoop, ho]
                  dsimp only
                  rw [if_pos hxy]
                  simp
                · have := ih (i + 1)
                  rw [ipLoop, ho]
                  dsimp only
                  rw [if_neg hxy]
                  constructor
                  · simpa using this.1
                  · simp only [List.length_cons, List.take_succ_cons,
                      List.map_cons]
                    exact congrArg _ this.2

/-- When every endpoint fetch fails, the loop finds no coordinate. -/
theorem ipLoop_all_fail (outcomes : ℕ → FetchOutcome)
    (h : ∀ i, outcomes i = FetchOutcome.fail) :
    ∀ (l : List String) (i : ℕ), (ipLoop outcomes l i).2 = none := by
  intro l
  induction l with
  | nil => intro i; simp [ipLoop]
  | cons s rest ih =>
      intro i
      rw [ipLoop, h i]
      exact ih (i + 1)

/-- C9: `getIPLocation` is total — it never reports a failure.  It tries
the three endpoints in order, each with a 5000 ms timeout; its result is
always either the first truthy endpoint response, one of the five
hardcoded city coordinates, or the hardcoded centroid; when every
endpoint fails it returns the pseudo-randomly chosen city, and when the
`try` body throws it returns `(20.5937, 78.9629)`. -/
theorem claim_C9 (outcomes : ℕ → FetchOutcome) (rand : Fin 5)
    (tryThrows : Bool) :
    (getIPLocation outcomes rand true = (20.5937, 78.9629)) ∧
    ((∀ i, outcomes i = FetchOutcome.fail) →
      getIPLocation outcomes rand false =
        indianCities.get (Fin.cast (show 5 = indianCities.length from rfl) rand) ∧
      getIPLocation outcomes rand false ∈ indianCities) ∧
    (ipServices.length = 3 ∧
      (ipLoop outcomes ipServices 0).1.length ≤ 3 ∧
      (ipLoop outcomes ipServices 0).1 =
        (ipServices.take (ipLoop outcomes ipServices 0).1.length).map
          (fun s => ⟨s, 5000⟩)) ∧
    ((getIPLocation outcomes rand tryThrows = (20.5937, 78.9629)) ∨
      (∃ c, (ipLoop outcomes ipServices 0).2 = some c ∧
        getIPLocation outcomes rand tryThrows = c) ∨
      getIPLocation outcomes rand tryThrows ∈ indianCities) := by
  refine ⟨by simp [getIPLocation], fun hfail => ?_, ?_, ?_⟩
  · have hl := ipLoop_all_fail outcomes hfail ipServices 0
    constructor
    · simp [getIPLocation, hl]
    · simp only [getIPLocation, hl, Bool.false_eq_true, if_false]
      exact List.get_mem indianCities _ _
  · exact ⟨rfl, (ipLoop_requests outcomes ipServices 0).1,
      (ipLoop_requests outcomes ipServices 0).2⟩
  · cases tryThrows with
    | true => exact Or.inl (by simp [getIPLocation])
    | false =>
        cases hc : (ipLoop outcomes ipServices 0).2 with
        | some c => exact Or.inr (Or.inl ⟨c, rfl, by simp [getIPLocation, hc]⟩)
        | none =>
            refine Or.inr (Or.inr ?_)
            simp only [getIPLocation, hc, Bool.false_eq_true, if_false]
            exact List.get_mem indianCities _ _

/-- Witness for C9: with every endpoint failing and random index 0, the
Delhi coordinate is returned. -/
theorem claim_C9_witness :
    getIPLocation (fun _ => FetchOutcome.fail) 0 false =
      indianCities.get (Fin.cast (show 5 = indianCities.length from rfl) 0) :=
  ((claim_C9 (fun _ => FetchOutcome.fail) 0 false).2.1 (fun _ => rfl)).1

theorem setVehicleDriver_users (st : Store) (id : String) (d : Option String)
    (n : ℤ) : (setVehicleDriver st id d n).users = st.users := rfl

theorem setVehicleDriver_vehicles (st : Store) (id : String) (d : Option String)
    (n : ℤ) (v : String) :
    (setVehicleDriver st id d n).vehicles v =
      if v = id then
        some { (st.vehicles id).getD {} with driverId := d, updatedAt := some n }
      else st.vehicles v := rfl

theorem setUserAssigned_vehicles (st : Store) (id : String) (av : Option String)
    (n : ℤ) : (setUserAssigned st id av n).vehicles = st.vehicles := rfl

theorem setUserAssigned_users (st : Store) (id : String) (av : Option String)
    (n : ℤ) (x : String) :
    (setUserAssigned st id av n).users x =
      if x = id then
        some { (st.users id).getD {} with
          assignedVehicleId := av
          updatedAt := some n }
      else st.users x := rfl

theorem clearOtherVehicleStep_users (st : Store) (u : UserRec) (vid : String)
    (n : ℤ) : (clearOtherVehicleStep st u vid n).users = st.users := by
  unfold clearOtherVehicleStep
  rcases jsStrTruthy u.assignedVehicleId with _ | av
  · rfl
  · dsimp only
    split
    · rfl
    · rfl

theorem clearOtherVehicleStep_vehicles (st : Store) (u : UserRec) (vid : String)
    (n : ℤ) (v : String) :
    (clearOtherVehicleStep st u vid n).vehicles v =
      if jsStrTruthy u.assignedVehicleId = some v ∧ v ≠ vid then
        some { (st.vehicles v).getD {} with driverId := none, updatedAt := some n }
      else st.vehicles v := by
  unfold clearOtherVehicleStep
  rcases h : jsStrTruthy u.assignedVehicleId with _ | av
  · dsimp only
    rw [if_neg]
    rintro ⟨h1, -⟩
    cases h1
  · dsimp only
    by_cases hav : av = vid
    · rw [if_neg (fun hne => hne hav), if_neg]
      rintro ⟨h1, h2⟩
      injection h1 with h1
      exact h2 (h1 ▸ hav)
    · rw [if_pos hav]
      by_cases hv : v = av
      · subst hv
        rw [if_pos ⟨rfl, hav⟩]
        simp [clearVehicleDriver, setVehicleDriver]
      · rw [if_neg]
        · simp [clearVehicleDriver, setVehicleDriver, hv]
        · rintro ⟨h1, -⟩
          injection h1 with h1
          exact hv h1.symm

theorem clearPreviousDriverStep_vehicles (st : Store) (cd : Option String)
    (d : String) (n : ℤ) :
    (clearPreviousDriverStep st cd d n).vehicles = st.vehicles := by
  unfold clearPreviousDriverStep
  rcases cd with _ | pd
  · rfl
  · dsimp only
    split
    · rfl
    · rfl

theorem clearPreviousDriverStep_users (st : Store) (cd : Option String)
    (d : String) (n : ℤ) (x : String) :
    (clearPreviousDriverStep st cd d n).users x =
      if cd = some x ∧ x ≠ d then
        some { (st.users x).getD {} with
          assignedVehicleId := none
          updatedAt := some n }
      else st.users x := by
  unfold clearPreviousDriverStep
  rcases cd with _ | pd
  · dsimp only
    rw [if_neg]
    rintro ⟨h1, -⟩
    cases h1
  · dsimp only
    by_cases hpd : pd = d
    · rw [if_neg (fun hne => hne hpd), if_neg]
      rintro ⟨h1, h2⟩
      injection h1 with h1
      exact h2 (h1.symm ▸ hpd)
    · rw [if_pos hpd]
      by_cases hx : x = pd
      · subst hx
        rw [if_pos ⟨rfl, hpd⟩]
        simp [setUserAssigned]
      · rw [if_neg]
        · simp [setUserAssigned, hx]
        · rintro ⟨h1, -⟩
          injection h1 with h1
          exact hx h1.symm

/-- Success-path unfolding of `assignDriver` when the vehicle exists, the
driver exists, and the driver's role is `driver`: the four update steps
run and no error is raised. -/
theorem assignDriver_ok (u : String) (n : ℤ) (st : Store) (vid d : String)
    (hvid : vid ≠ "") (hd : d ≠ "") (vrec : VehicleRec)
    (hv : st.vehicles vid = some vrec) (urec : UserRec)
    (hu : st.users d = some urec) (hrole : urec.role = some "driver") :
    vehicleService.assignDriver (some u) n st vid (some d) =
      (setVehicleDriver
        (clearPreviousDriverStep
          (setUserAssigned (clearOtherVehicleStep st urec vid n) d (some vid) n)
          (jsStrTruthy vrec.driverId) d n)
        vid (some d) n, none) := by
  simp only [vehicleService.assignDriver, if_neg hvid, hv, hu,
    jsStrTruthy_some d hd]
  rw [if_neg (by simp [hrole])]

/-- After a successful `assignDriver(vid, d)`, the driver's user record
holds `assignedVehicleId = vid` (role untouched). -/
theorem assignPost_users_d (st : Store) (urec : UserRec) (vid d : String)
    (cd : Option String) (n : ℤ) (hu : st.users d = some urec) :
    (setVehicleDriver
        (clearPreviousDriverStep
          (setUserAssigned (clearOtherVehicleStep st urec vid n) d (some vid) n)
          cd d n) vid (some d) n).users d =
      some ⟨urec.role, some vid, some n⟩ := by
  rw [setVehicleDriver_users, clearPreviousDriverStep_users,
    if_neg (fun h => h.2 rfl), setUserAssigned_users, if_pos rfl,
    clearOtherVehicleStep_users, hu]
  rfl

/-- After a successful `assignDriver(vid, d)`, pointwise description of the
vehicles tree: `vid` holds `driverId = d`, the incoming driver's previous
vehicle (when different from `vid`) was cleared, and every other vehicle
is untouched. -/
theorem assignPost_vehicles (st : Store) (urec : UserRec) (vid d : String)
    (cd : Option String) (n : ℤ) (v : String) :
    (setVehicleDriver
        (clearPreviousDriverStep
          (setUserAssigned (clearOtherVehicleStep st urec vid n) d (some vid) n)
          cd d n) vid (some d) n).vehicles v =
      if v = vid then
        some { (st.vehicles vid).getD {} with
          driverId := some d
          updatedAt := some n }
      else if jsStrTruthy urec.assignedVehicleId = some v ∧ v ≠ vid then
        some { (st.vehicles v).getD {} with driverId := none, updatedAt := some n }
      else st.vehicles v := by
  rw [setVehicleDriver_vehicles]
  by_cases hv : v = vid
  · rw [if_pos hv, if_pos hv, clearPreviousDriverStep_vehicles,
      setUserAssigned_vehicles, clearOtherVehicleStep_vehicles,
      if_neg (fun h => h.2 rfl)]
  · rw [if_neg hv, if_neg hv, clearPreviousDriverStep_vehicles,
      setUserAssigned_vehicles, clearOtherVehicleStep_vehicles]

/-- C2: for distinct existing vehicles `A`, `B` and an existing driver `X`
(role `driver`) in a store satisfying the bidirectional invariant for `X`,
running `assign(A, X)` and then `assign(B, X)` to completion succeeds both
times and leaves: `A.driverId = null`, `B.driverId = X`,
`X.assignedVehicleId = B`, and no vehicle other than `B` referencing `X`. -/
theorem claim_C2 (u₁ u₂ : String) (n₁ n₂ : ℤ) (st : Store) (A B X : String)
    (hAB : A ≠ B) (hA0 : A ≠ "") (hB0 : B ≠ "") (hX0 : X ≠ "")
    (va : VehicleRec) (hA : st.vehicles A = some va)
    (vb : VehicleRec) (hB : st.vehicles B = some vb)
    (ux : UserRec) (hX : st.users X = some ux)
    (hrole : ux.role = some "driver")
    (hbidir : ∀ v r, st.vehicles v = some r → r.driverId = some X →
      jsStrTruthy ux.assignedVehicleId = some v) :
    (vehicleService.assignDriver (some u₁) n₁ st A (some X)).2 = none ∧
    (vehicleService.assignDriver (some u₂) n₂
        (vehicleService.assignDriver (some u₁) n₁ st A (some X)).1 B
        (some X)).2 = none ∧
    ((vehicleService.assignDriver (some u₂) n₂
        (vehicleService.assignDriver (some u₁) n₁ st A (some X)).1 B
        (some X)).1.vehicles A).map (fun r => r.driverId) = some none ∧
    ((vehicleService.assignDriver (some u₂) n₂
        (vehicleService.assignDriver (some u₁) n₁ st A (some X)).1 B
        (some X)).1.vehicles B).map (fun r => r.driverId) = some (some X) ∧
    ((vehicleService.assignDriver (some u₂) n₂
        (vehicleService.assignDriver (some u₁) n₁ st A (some X)).1 B
        (some X)).1.users X).map (fun r => r.assignedVehicleId) =
      some (some B) ∧
    (∀ v, v ≠ B → ∀ r,
      (vehicleService.assignDriver (some u₂) n₂
        (vehicleService.assignDriver (some u₁) n₁ st A (some X)).1 B
        (some X)).1.vehicles v = some r → r.driverId ≠ some X) := by
  obtain ⟨s1, hcall1, hS1X, hS1veh⟩ :
      ∃ s1, vehicleService.assignDriver (some u₁) n₁ st A (some X) =
          (s1, none) ∧
        s1.users X = some ⟨ux.role, some A, some n₁⟩ ∧
        ∀ v, s1.vehicles v =
          if v = A then
            some { (st.vehicles A).getD {} with
              driverId := some X
              updatedAt := some n₁ }
          else if jsStrTruthy ux.assignedVehicleId = some v ∧ v ≠ A then
            some { (st.vehicles v).getD {} with
              driverId := none
              updatedAt := some n₁ }
          else st.vehicles v :=
    ⟨_, assignDriver_ok u₁ n₁ st A X hA0 hX0 va hA ux hX hrole,
      assignPost_users_d st ux A X _ n₁ hX,
      fun v => assignPost_vehicles st ux A X _ n₁ v⟩
  obtain ⟨vbp, hvbp⟩ : ∃ w, s1.vehicles B = some w := by
    rw [hS1veh B, if_neg (fun h => hAB h.symm)]
    by_cases hc : jsStrTruthy ux.assignedVehicleId = some B ∧ B ≠ A
    · rw [if_pos hc]
      exact ⟨_, rfl⟩
    · rw [if_neg hc, hB]
      exact ⟨_, rfl⟩
  obtain ⟨s2, hcall2, hS2X, hS2veh⟩ :
      ∃ s2, vehicleService.assignDriver (some u₂) n₂ s1 B (some X) =
          (s2, none) ∧
        s2.users X = some ⟨ux.role, some B, some n₂⟩ ∧
        ∀ v, s2.vehicles v =
          if v = B then
            some { (s1.vehicles B).getD {} with
              driverId := some X
              updatedAt := some n₂ }
          else if jsStrTruthy (some A) = some v ∧ v ≠ B then
            some { (s1.vehicles v).getD {} with
              driverId := none
              updatedAt := some n₂ }
          else s1.vehicles v :=
    ⟨_, assignDriver_ok u₂ n₂ s1 B X hB0 hX0 vbp hvbp
        ⟨ux.role, some A, some n₁⟩ hS1X hrole,
      assignPost_users_d s1 ⟨ux.role, some A, some n₁⟩ B X _ n₂ hS1X,
      fun v => assignPost_vehicles s1 ⟨ux.role, some A, some n₁⟩ B X _ n₂ v⟩
  rw [hcall1]
  dsimp only
  rw [hcall2]
  dsimp only
  refine ⟨rfl, rfl, ?_, ?_, ?_, ?_⟩
  · rw [hS2veh A, if_neg hAB, if_pos ⟨jsStrTruthy_some A hA0, hAB⟩]
    rfl
  · rw [hS2veh B, if_pos rfl]
    rfl
  · rw [hS2X]
    rfl
  · intro v hvB r hr hdr
    rw [hS2veh v, if_neg hvB] at hr
    by_cases hvA : v = A
    · subst hvA
      rw [if_pos ⟨jsStrTruthy_some v hA0, hvB⟩] at hr
      injection hr with hr
      rw [← hr] at hdr
      simp at hdr
    · rw [if_neg (fun h => hvA (by
        have h1 := h.1
        rw [jsStrTruthy_some A hA0] at h1
        injection h1 with h1
        exact h1.symm))] at hr
      rw [hS1veh v, if_neg hvA] at hr
      by_cases hc : jsStrTruthy ux.assignedVehicleId = some v ∧ v ≠ A
      · rw [if_pos hc] at hr
        injection hr with hr
        rw [← hr] at hdr
        simp at hdr
      · rw [if_neg hc] at hr
        exact hc ⟨hbidir v r hr hdr, hvA⟩

/-- Witness for C2: on a concrete store with two unassigned vehicles and
one driver, the second assignment ends with vehicle `vB` referencing the
driver `uX`. -/
theorem claim_C2_witness :
    ((vehicleService.assignDriver (some "a2") 1
        (vehicleService.assignDriver (some "a1") 0
          (⟨fun v => if v = "vA" then some ⟨none, none, none⟩
              else if v = "vB" then some ⟨none, none, none⟩ else none,
            fun u => if u = "uX" then some ⟨some "driver", none, none⟩ else none,
            fun _ => none, fun _ => none, fun _ => none⟩ : Store)
          "vA" (some "uX")).1
        "vB" (some "uX")).1.vehicles "vB").map (fun r => r.driverId) =
      some (some "uX") :=
  (claim_C2 "a1" "a2" 0 1
    (⟨fun v => if v = "vA" then some ⟨none, none, none⟩
        else if v = "vB" then some ⟨none, none, none⟩ else none,
      fun u => if u = "uX" then some ⟨some "driver", none, none⟩ else none,
      fun _ => none, fun _ => none, fun _ => none⟩ : Store)
    "vA" "vB" "uX" (by decide) (by decide) (by decide) (by decide)
    ⟨none, none, none⟩ (by simp) ⟨none, none, none⟩ (by simp)
    ⟨some "driver", none, none⟩ (by simp) rfl
    (by
      intro v r hv hr
      dsimp only at hv
      split_ifs at hv <;>
        first
          | exact Option.noConfusion hv
          | (injection hv with hv; rw [← hv] at hr; simp at hr))).2.2.2.1
